import Mathlib

/-!
# genipc: blocking socket and shared-memory primitives

A shallow embedding of `genipc.hpp` and `socket.hpp`.

* A C++ object is a structure of its data members; a member function takes the
  object and returns a `Run`: how the call ended, the object afterwards (kept
  also when the call throws, the caller may go on using the object), and the
  operating-system calls issued, in order.
* The operating system is not part of the repository.  The return value of each
  system call is read from an `OS` record of functions, universally quantified
  in the theorems; every member function calls each entry at most once.
* `int` values are `Int`, `size_t` values are `Nat`; the two conversions the
  code performs (`size_t` to `int`, `int` to `size_t`) are explicit.
* A `std::string` is its list of bytes.  Reading a `char` array as a C string is
  fallible: it has a value only when the array holds a zero byte.
-/

/-! ## Values -/

/-- One `char`. -/
abbrev Byte := Fin 256

/-- The content of a `std::string`: `length()` bytes, zero bytes allowed. -/
abbrev std_string := List Byte

/-- The bytes of an ASCII literal. -/
def ascii (s : String) : std_string := s.toList.map (fun c => Fin.ofNat c.toNat)

/-- Decimal text of an `int`, as `std::to_string(int)` prints it. -/
def to_string (value : Int) : std_string := ascii (toString value)

/-- What a reader of `s.c_str()` sees: the bytes before the first zero byte
(the array returned by `c_str()` always ends in a zero byte). -/
def c_str (s : std_string) : std_string := s.takeWhile (fun b => b ≠ 0)

/-- Reading a `char` array of known extent as a C string (`std::string = char*`):
the bytes before the first zero byte.  `none` when the array holds no zero
byte: the read runs past the end of the array, which is undefined behaviour. -/
def cstr : List Byte → Option std_string
  | [] => none
  | b :: bs => if b = 0 then some [] else (cstr bs).map (fun r => b :: r)

/-- Conversion of a `size_t` to `int` (two's complement, 32 bits). -/
def to_int (n : Nat) : Int := ((n : Int) + 2 ^ 31) % 2 ^ 32 - 2 ^ 31

/-- Conversion of an `int` to `size_t` (64 bits). -/
def to_size_t (i : Int) : Nat := (i % 2 ^ 64).toNat

/-! ## Constants of the system headers (their Linux values) -/

/-- Constant `AF_INET` of `<sys/socket.h>`. -/
def AF_INET : Int := 2
/-- Constant `SOCK_STREAM` of `<sys/socket.h>`. -/
def SOCK_STREAM : Int := 1
/-- Constant `SOL_SOCKET` of `<sys/socket.h>`. -/
def SOL_SOCKET : Int := 1
/-- Constant `SO_REUSEADDR` of `<sys/socket.h>`. -/
def SO_REUSEADDR : Int := 2
/-- Constant `INADDR_ANY` of `<netinet/in.h>`: the wildcard address. -/
def INADDR_ANY : Nat := 0
/-- Constant `IPC_CREAT` of `<sys/ipc.h>` (octal 01000). -/
def IPC_CREAT : Nat := 0o1000

/-- Function `htons` of `<arpa/inet.h>` on a little-endian host: the argument is taken as
a `uint16_t` and its two bytes are swapped. -/
def htons (hostshort : Int) : Nat :=
  let h := (hostshort % 65536).toNat
  (h % 256) * 256 + h / 256

/-- The `sockaddr_in` of `<netinet/in.h>`. -/
structure sockaddr_in where
  sin_family : Int
  sin_port : Nat
  sin_addr : Nat
deriving DecidableEq, Repr

/-- Size `sizeof(sockaddr_in)`. -/
def sizeof_sockaddr_in : Nat := 16

/-! ## The operating system -/

/-- One call into the operating system, with the arguments passed. -/
inductive SysCall
  | socket (domain type protocol : Int)
  | setsockopt (fd level optname optval : Int)
  | bind (fd : Int) (addr : sockaddr_in) (addrlen : Nat)
  | listen (fd backlog : Int)
  | inet_pton (af : Int) (src : std_string)
  | connect (fd : Int) (addr : sockaddr_in) (addrlen : Nat)
  | close (fd : Int)
  | send (fd : Int) (len : Nat) (flags : Int)
  | recv (fd : Int) (len : Nat) (flags : Int)
  | ftok (pathname : std_string) (proj_id : Int)
  | shmget (key : Int) (size : Nat) (shmflg : Nat)
deriving DecidableEq, Repr

/-- Return values of the system calls that answer with a status or a handle.
`inet_pton` answers with its return value and the address it writes when that
value is positive. -/
structure OS where
  socket : Int → Int → Int → Int
  setsockopt : Int → Int → Int → Int → Int
  bind : Int → sockaddr_in → Nat → Int
  listen : Int → Int → Int
  inet_pton : Int → std_string → Int × Nat
  connect : Int → sockaddr_in → Nat → Int
  ftok : std_string → Int → Int
  shmget : Int → Nat → Nat → Int

/-- What the kernel does with one `::send` or `::recv` on a stream: it fails
(the call returns -1), or it moves at most `n` bytes, never more than asked for
and never more than there are. -/
inductive Transfer
  | fail
  | upTo (n : Nat)
deriving DecidableEq, Repr

/-- Call `::recv(fd, buf, len, 0)` on a stream whose receive queue holds `queue`:
the bytes delivered are taken off the front of the queue and overwrite the
start of `buf`.  Returns the return value, the buffer and the queue. -/
def sys_recv (queue buf : List Byte) (len : Nat) (k : Transfer) :
    Int × List Byte × List Byte :=
  match k with
  | .fail => (-1, buf, queue)
  | .upTo m =>
    let n := min m (min len queue.length)
    ((n : Int), queue.take n ++ buf.drop n, queue.drop n)

/-- Call `::send(fd, buf, len, 0)` on a stream: the bytes accepted are read from the
start of the memory `buf` and appended to the peer's receive queue.  Returns
the return value and the queue. -/
def sys_send (queue buf : List Byte) (len : Nat) (k : Transfer) :
    Int × List Byte :=
  match k with
  | .fail => (-1, queue)
  | .upTo m =>
    let n := min m (min len buf.length)
    ((n : Int), queue ++ buf.take n)

/-! ## Exceptions -/

/-- A value thrown by the code. -/
inductive Thrown
  /-- Class `Socket::SocketException`, a `std::runtime_error`; `what` is its message. -/
  | SocketException (what : String)
  /-- A plain `std::runtime_error`. -/
  | runtime_error (what : String)
  /-- A string literal thrown as it is (`throw "..."`): a `const char *`. -/
  | text (msg : String)
deriving DecidableEq, Repr

/-- Whether the thrown value is an exception object (derives from
`std::exception`) rather than a bare `const char *`. -/
def Thrown.structured : Thrown → Bool
  | .SocketException _ => true
  | .runtime_error _ => true
  | .text _ => false

/-- How a call ends. -/
inductive Outcome (α : Type)
  | returned (value : α)
  | thrown (e : Thrown)
deriving DecidableEq, Repr

/-- A finished call of a member function: how it ended, the object afterwards
and the system calls it issued. -/
structure Run (σ α : Type) where
  result : Outcome α
  state : σ
  calls : List SysCall
deriving DecidableEq, Repr

/-! ## `genipc::SharedMemory` (genipc.hpp) -/

namespace genipc

/-- Class `SharedMemory::_unix_handle::_id`, also `SharedMemory::id_t`. -/
structure SharedMemory._unix_handle._id where
  path : std_string
  id : Int
deriving DecidableEq, Repr

/-- Class `SharedMemory::_unix_handle`. -/
structure SharedMemory._unix_handle where
  shmid : Int
deriving DecidableEq, Repr

/-- Class `SharedMemory`. -/
structure SharedMemory where
  _handle : SharedMemory._unix_handle
deriving DecidableEq, Repr

/-- Constructor `_unix_handle(const _id &id, size_t size)`: the key of `ftok` goes to
`shmget` and the answer of `shmget` is stored; neither answer is tested. -/
def SharedMemory._unix_handle.ctor (id : SharedMemory._unix_handle._id) (size : Nat)
    (os : OS) : Run Unit SharedMemory._unix_handle :=
  let key := os.ftok (c_str id.path) id.id
  let shmid := os.shmget key size (IPC_CREAT ||| 0o666)
  { result := .returned { shmid := shmid }
    state := ()
    calls := [.ftok (c_str id.path) id.id, .shmget key size (IPC_CREAT ||| 0o666)] }

/-- Constructor `SharedMemory(const id_t &id, size_t size) : _handle(id, size)`. -/
def SharedMemory.ctor (id : SharedMemory._unix_handle._id) (size : Nat) (os : OS) :
    Run Unit SharedMemory :=
  let h := SharedMemory._unix_handle.ctor id size os
  match h.result with
  | .returned handle => { result := .returned { _handle := handle }, state := (), calls := h.calls }
  | .thrown e => { result := .thrown e, state := (), calls := h.calls }

end genipc

/-! ## `SocketStream` (the same text in genipc.hpp and socket.hpp) -/

/-- Class `SocketStream`. -/
structure SocketStream where
  _socket : Int
  _host : std_string
  _serv : std_string
deriving DecidableEq, Repr

/-- Member `operator bool()`. -/
def SocketStream.operator_bool (s : SocketStream) : Bool := decide (s._socket ≥ 0)

/-- Member `host()`. -/
def SocketStream.host (s : SocketStream) : std_string := s._host

/-- Member `serv()`. -/
def SocketStream.serv (s : SocketStream) : std_string := s._serv

/-- Destructor `~SocketStream()`. -/
def SocketStream.destructor (s : SocketStream) : List SysCall := [.close s._socket]

/-- A finished `send`: the return value, the peer's receive queue afterwards
and the system calls issued. -/
structure SendRun where
  ret : Int
  queue : List Byte
  calls : List SysCall
deriving DecidableEq, Repr

/-- Member `int send(const char *buf, int len)`; `buf` is the memory readable at the
pointer. -/
def SocketStream.send (s : SocketStream) (buf : List Byte) (len : Int)
    (queue : List Byte) (k : Transfer) : SendRun :=
  let r := sys_send queue buf (to_size_t len) k
  { ret := r.1, queue := r.2, calls := [.send s._socket (to_size_t len) 0] }

/-- Member `int send(const std::string &buf)`. -/
def SocketStream.send_string (s : SocketStream) (buf : std_string)
    (queue : List Byte) (k : Transfer) : SendRun :=
  s.send (buf ++ [0]) (to_int buf.length) queue k

/-- A finished `recv(char *, int)`: the return value, the buffer and the
receive queue afterwards, and the system calls issued. -/
structure RecvRun where
  ret : Int
  buffer : List Byte
  queue : List Byte
  calls : List SysCall
deriving DecidableEq, Repr

/-- Member `int recv(char *buf, int len)`; `buf` is the array the pointer points into,
at least `len` bytes long. -/
def SocketStream.recv (s : SocketStream) (buf : List Byte) (len : Int)
    (queue : List Byte) (k : Transfer) : RecvRun :=
  let r := sys_recv queue buf (to_size_t len) k
  { ret := r.1, buffer := r.2.1, queue := r.2.2, calls := [.recv s._socket (to_size_t len) 0] }

/-- A finished `recv(std::string &)`: the return value, the string assigned to
the output parameter (`none`: the assignment read past the end of the local
array), the receive queue afterwards and the system calls issued. -/
structure RecvStringRun where
  ret : Int
  buf : Option std_string
  queue : List Byte
  calls : List SysCall
deriving DecidableEq, Repr

/-- Member `int recv(std::string &buf)`: a zeroed local array of 1024 bytes is handed
whole to `recv(char *, int)` and then assigned to `buf` as a C string. -/
def SocketStream.recv_string (s : SocketStream) (queue : List Byte) (k : Transfer) :
    RecvStringRun :=
  let buffer : List Byte := List.replicate 1024 0
  let r := s.recv buffer (to_int 1024) queue k
  { ret := r.ret, buf := cstr r.buffer, queue := r.queue, calls := r.calls }

/-! ## `Socket` of genipc.hpp -/

/-- Class `Socket`. -/
structure Socket where
  _fd : Int
  _port : Int
  _addr : sockaddr_in
  _addr_len : Nat
deriving DecidableEq, Repr

/-- Constructor `SocketException(const char *msg)`: the message is prefixed. -/
def Socket.SocketException (msg : String) : Thrown :=
  .SocketException ("Socket: " ++ msg)

/-- Member `void _mk_socket()`. -/
def Socket._mk_socket (s : Socket) (os : OS) : Run Socket Unit :=
  let fd := os.socket AF_INET SOCK_STREAM 0
  let s1 := { s with _fd := fd }
  if fd ≤ 0 then
    { result := .thrown (Socket.SocketException "Error creating socket")
      state := s1, calls := [.socket AF_INET SOCK_STREAM 0] }
  else
    { result := .returned (), state := s1, calls := [.socket AF_INET SOCK_STREAM 0] }

/-- Destructor `~Socket()`. -/
def Socket.destructor (s : Socket) : List SysCall := [.close s._fd]

/-- Member `void close()`. -/
def Socket.close (s : Socket) : Run Socket Unit :=
  { result := .returned (), state := s, calls := [.close s._fd] }

/-- Member `SocketStream connect(std::string host, int port)`. -/
def Socket.connect (s : Socket) (host : std_string) (port : Int) (os : OS) :
    Run Socket SocketStream :=
  let r := s._mk_socket os
  match r.result with
  | .thrown e => { result := .thrown e, state := r.state, calls := r.calls }
  | .returned _ =>
    let s1 : Socket :=
      { r.state with _addr := { r.state._addr with sin_family := AF_INET, sin_port := htons port } }
    let conv := os.inet_pton AF_INET (c_str host)
    let s2 : Socket :=
      if 0 < conv.1 then { s1 with _addr := { s1._addr with sin_addr := conv.2 } } else s1
    let calls2 := r.calls ++ [SysCall.inet_pton AF_INET (c_str host)]
    if conv.1 ≤ 0 then
      { result := .thrown (Socket.SocketException "Error converting host to binary")
        state := s2, calls := calls2 }
    else
      let calls3 := calls2 ++ [SysCall.connect s2._fd s2._addr sizeof_sockaddr_in]
      if os.connect s2._fd s2._addr sizeof_sockaddr_in < 0 then
        { result := .thrown (Socket.SocketException "Error connecting to server")
          state := s2, calls := calls3 }
      else
        { result := .returned { _socket := s2._fd, _host := host, _serv := to_string port }
          state := s2, calls := calls3 }

/-- Member `void bind(int port)`. -/
def Socket.bind (s : Socket) (port : Int) (os : OS) : Run Socket Unit :=
  let r := s._mk_socket os
  match r.result with
  | .thrown e => { result := .thrown e, state := r.state, calls := r.calls }
  | .returned _ =>
    let s1 := r.state
    let calls1 := r.calls ++ [SysCall.setsockopt s1._fd SOL_SOCKET SO_REUSEADDR 1]
    if os.setsockopt s1._fd SOL_SOCKET SO_REUSEADDR 1 < 0 then
      { result := .thrown (.text "Error setting socket options"), state := s1, calls := calls1 }
    else
      let s2 : Socket :=
        { s1 with
          _port := port
          _addr := { sin_family := AF_INET, sin_port := htons port, sin_addr := INADDR_ANY }
          _addr_len := sizeof_sockaddr_in }
      let calls2 := calls1 ++ [SysCall.bind s2._fd s2._addr sizeof_sockaddr_in]
      if os.bind s2._fd s2._addr sizeof_sockaddr_in < 0 then
        { result := .thrown (Socket.SocketException "Socket: Error binding socket")
          state := s2, calls := calls2 }
      else
        let calls3 := calls2 ++ [SysCall.listen s2._fd 10]
        if os.listen s2._fd 10 < 0 then
          { result := .thrown (.text "Error listening"), state := s2, calls := calls3 }
        else
          { result := .returned (), state := s2, calls := calls3 }

/-- Member `int port()`. -/
def Socket.port (s : Socket) : Int := s._port

/-! ## `Socket` of socket.hpp -/

namespace socket_hpp

/-- Class `Socket` (the same data members as in genipc.hpp). -/
structure Socket where
  _fd : Int
  _port : Int
  _addr : sockaddr_in
  _addr_len : Nat
deriving DecidableEq, Repr

/-- Member `void _mk_listener()`. -/
def Socket._mk_listener (s : Socket) (os : OS) : Run Socket Unit :=
  let fd := os.socket AF_INET SOCK_STREAM 0
  let s1 := { s with _fd := fd }
  if fd < 0 then
    { result := .thrown (.text "Error creating socket")
      state := s1, calls := [.socket AF_INET SOCK_STREAM 0] }
  else
    { result := .returned (), state := s1, calls := [.socket AF_INET SOCK_STREAM 0] }

/-- Member `void close()`. -/
def Socket.close (s : Socket) : Run Socket Unit :=
  { result := .returned (), state := s, calls := [.close s._fd] }

/-- Member `void bind(int port)`. -/
def Socket.bind (s : Socket) (port : Int) (os : OS) : Run Socket Unit :=
  let r := s._mk_listener os
  match r.result with
  | .thrown e => { result := .thrown e, state := r.state, calls := r.calls }
  | .returned _ =>
    let s1 := r.state
    let calls1 := r.calls ++ [SysCall.setsockopt s1._fd SOL_SOCKET SO_REUSEADDR 1]
    if os.setsockopt s1._fd SOL_SOCKET SO_REUSEADDR 1 < 0 then
      { result := .thrown (.text "Error setting socket options"), state := s1, calls := calls1 }
    else
      let s2 : Socket :=
        { s1 with
          _port := port
          _addr := { sin_family := AF_INET, sin_port := htons port, sin_addr := INADDR_ANY }
          _addr_len := sizeof_sockaddr_in }
      let calls2 := calls1 ++ [SysCall.bind s2._fd s2._addr sizeof_sockaddr_in]
      if os.bind s2._fd s2._addr sizeof_sockaddr_in < 0 then
        { result := .thrown (.runtime_error "Socket: Error binding socket")
          state := s2, calls := calls2 }
      else
        let calls3 := calls2 ++ [SysCall.listen s2._fd 10]
        if os.listen s2._fd 10 < 0 then
          { result := .thrown (.text "Error listening"), state := s2, calls := calls3 }
        else
          { result := .returned (), state := s2, calls := calls3 }

/-- Member `int port()`. -/
def Socket.port (s : Socket) : Int := s._port

end socket_hpp

/-! ## Callers -/

/-- A caller that issues one `bind` after another on the same `Socket`, each
with the port given and against the operating system given, catching what a
call throws; the object after the last call. -/
def Socket.bind_each (s : Socket) : List (Int × OS) → Socket
  | [] => s
  | (port, os) :: rest => Socket.bind_each (s.bind port os).state rest

/-- Whether a `bind` against `os` gets as far as the assignment `_port = port`:
the descriptor is created and address reuse is enabled. -/
def OS.bind_records_port (os : OS) : Bool :=
  decide (0 < os.socket AF_INET SOCK_STREAM 0) &&
  decide (0 ≤ os.setsockopt (os.socket AF_INET SOCK_STREAM 0) SOL_SOCKET SO_REUSEADDR 1)

/-! ## Concrete inputs -/

/-- A `Socket` before any call (its members hold arbitrary values). -/
def socket0 : Socket :=
  { _fd := -1, _port := 0, _addr := { sin_family := 0, sin_port := 0, sin_addr := 0 }, _addr_len := 0 }

/-- An operating system in which every call succeeds: descriptor 3, address
127.0.0.1, key 77, segment 5. -/
def os_all_succeed : OS :=
  { socket := fun _ _ _ => 3
    setsockopt := fun _ _ _ _ => 0
    bind := fun _ _ _ => 0
    listen := fun _ _ => 0
    inet_pton := fun _ _ => (1, 0x0100007f)
    connect := fun _ _ _ => 0
    ftok := fun _ _ => 77
    shmget := fun _ _ _ => 5 }

/-- As `os_all_succeed`, but `listen` fails. -/
def os_listen_fails : OS := { os_all_succeed with listen := fun _ _ => -1 }

/-- As `os_all_succeed`, but `::bind` fails. -/
def os_bind_fails : OS := { os_all_succeed with bind := fun _ _ _ => -1 }

/-- As `os_all_succeed`, but `setsockopt` fails. -/
def os_setsockopt_fails : OS := { os_all_succeed with setsockopt := fun _ _ _ _ => -1 }

/-- An operating system out of descriptors in which no host string is an
address: `socket` fails and `inet_pton` answers 0. -/
def os_no_descriptor : OS :=
  { os_all_succeed with socket := fun _ _ _ => -1, inet_pton := fun _ _ => (0, 0) }

/-- An operating system in which the path of a segment identity does not exist
and no segment is granted: `ftok` and `shmget` fail. -/
def os_no_segment : OS :=
  { os_all_succeed with ftok := fun _ _ => -1, shmget := fun _ _ _ => -1 }

/-- As `os_all_succeed`, but no host string is an address: `inet_pton` answers 0. -/
def os_bad_host : OS := { os_all_succeed with inet_pton := fun _ _ => (0, 0) }

/-- As `os_all_succeed`, but the connection is refused: `::connect` fails. -/
def os_connection_refused : OS := { os_all_succeed with connect := fun _ _ _ => -1 }

/-- The endpoint that `connect` returns when every call succeeds. -/
def stream_client : SocketStream :=
  { _socket := 3, _host := ascii "127.0.0.1", _serv := ascii "8080" }

/-- An accepted endpoint, the peer of `stream_client`. -/
def stream_server : SocketStream :=
  { _socket := 4, _host := ascii "localhost", _serv := ascii "51234" }

/-- An identity of a shared-memory segment whose path does not exist. -/
def id_no_such_path : genipc.SharedMemory._unix_handle._id :=
  { path := ascii "/no/such/path", id := 7 }

/-! ## Theorems -/

/-! ### How `connect` and `bind` end, step by step -/

/-- Helper: the result of `connect`, by the answers of the three calls. -/
theorem Socket.connect_result (s : Socket) (host : std_string) (port : Int) (os : OS) :
    (s.connect host port os).result =
      if os.socket AF_INET SOCK_STREAM 0 ≤ 0 then
        Outcome.thrown (Socket.SocketException "Error creating socket")
      else if (os.inet_pton AF_INET (c_str host)).1 ≤ 0 then
        Outcome.thrown (Socket.SocketException "Error converting host to binary")
      else if os.connect (os.socket AF_INET SOCK_STREAM 0)
          { sin_family := AF_INET, sin_port := htons port
            sin_addr := (os.inet_pton AF_INET (c_str host)).2 } sizeof_sockaddr_in < 0 then
        Outcome.thrown (Socket.SocketException "Error connecting to server")
      else
        Outcome.returned
          { _socket := os.socket AF_INET SOCK_STREAM 0, _host := host, _serv := to_string port } := by
  unfold Socket.connect Socket._mk_socket
  by_cases h1 : os.socket AF_INET SOCK_STREAM 0 ≤ 0
  · simp [h1]
  · by_cases h2 : (os.inet_pton AF_INET (c_str host)).1 ≤ 0
    · simp [h1, h2]
    · have h2p : 0 < (os.inet_pton AF_INET (c_str host)).1 := by omega
      simp only [h1, h2, h2p, if_true, if_false]
      split <;> rfl

/-- Helper: the system calls of `connect`, by the answers of the first two. -/
theorem Socket.connect_calls (s : Socket) (host : std_string) (port : Int) (os : OS) :
    (s.connect host port os).calls =
      if os.socket AF_INET SOCK_STREAM 0 ≤ 0 then
        [SysCall.socket AF_INET SOCK_STREAM 0]
      else if (os.inet_pton AF_INET (c_str host)).1 ≤ 0 then
        [SysCall.socket AF_INET SOCK_STREAM 0, SysCall.inet_pton AF_INET (c_str host)]
      else
        [SysCall.socket AF_INET SOCK_STREAM 0, SysCall.inet_pton AF_INET (c_str host),
         SysCall.connect (os.socket AF_INET SOCK_STREAM 0)
          { sin_family := AF_INET, sin_port := htons port
            sin_addr := (os.inet_pton AF_INET (c_str host)).2 } sizeof_sockaddr_in] := by
  unfold Socket.connect Socket._mk_socket
  by_cases h1 : os.socket AF_INET SOCK_STREAM 0 ≤ 0
  · simp [h1]
  · by_cases h2 : (os.inet_pton AF_INET (c_str host)).1 ≤ 0
    · simp [h1, h2]
    · have h2p : 0 < (os.inet_pton AF_INET (c_str host)).1 := by omega
      simp only [h1, h2, h2p, if_true, if_false]
      split <;> rfl

/-- Helper: after `connect`, however it ends, `_fd` holds the answer of `socket`. -/
theorem Socket.connect_state_fd (s : Socket) (host : std_string) (port : Int) (os : OS) :
    (s.connect host port os).state._fd = os.socket AF_INET SOCK_STREAM 0 := by
  unfold Socket.connect Socket._mk_socket
  by_cases h1 : os.socket AF_INET SOCK_STREAM 0 ≤ 0
  · simp [h1]
  · by_cases h2 : (os.inet_pton AF_INET (c_str host)).1 ≤ 0
    · have h2n : ¬ 0 < (os.inet_pton AF_INET (c_str host)).1 := by omega
      simp [h1, h2, h2n]
    · have h2p : 0 < (os.inet_pton AF_INET (c_str host)).1 := by omega
      simp only [h1, h2, h2p, if_true, if_false]
      split <;> rfl

/-- Helper: `_mk_socket` throws exactly when `socket` answers a value that is
not positive, descriptor 0 included. -/
theorem Socket._mk_socket_result (s : Socket) (os : OS) :
    (s._mk_socket os).result =
      if os.socket AF_INET SOCK_STREAM 0 ≤ 0 then
        Outcome.thrown (Socket.SocketException "Error creating socket")
      else Outcome.returned () := by
  unfold Socket._mk_socket
  by_cases h1 : os.socket AF_INET SOCK_STREAM 0 ≤ 0 <;> simp [h1]

/-- Helper: the result of `bind` of genipc.hpp, by the answers of the four calls. -/
theorem Socket.bind_result (s : Socket) (port : Int) (os : OS) :
    (s.bind port os).result =
      if os.socket AF_INET SOCK_STREAM 0 ≤ 0 then
        Outcome.thrown (Socket.SocketException "Error creating socket")
      else if os.setsockopt (os.socket AF_INET SOCK_STREAM 0) SOL_SOCKET SO_REUSEADDR 1 < 0 then
        Outcome.thrown (Thrown.text "Error setting socket options")
      else if os.bind (os.socket AF_INET SOCK_STREAM 0)
          { sin_family := AF_INET, sin_port := htons port, sin_addr := INADDR_ANY }
          sizeof_sockaddr_in < 0 then
        Outcome.thrown (Socket.SocketException "Socket: Error binding socket")
      else if os.listen (os.socket AF_INET SOCK_STREAM 0) 10 < 0 then
        Outcome.thrown (Thrown.text "Error listening")
      else Outcome.returned () := by
  unfold Socket.bind Socket._mk_socket
  by_cases h1 : os.socket AF_INET SOCK_STREAM 0 ≤ 0
  · simp [h1]
  · simp only [h1, if_false]
    split
    · rfl
    · split
      · rfl
      · split <;> rfl

/-- Helper: the system calls of `bind` of genipc.hpp, by the answers of the
first three. -/
theorem Socket.bind_calls (s : Socket) (port : Int) (os : OS) :
    (s.bind port os).calls =
      if os.socket AF_INET SOCK_STREAM 0 ≤ 0 then
        [SysCall.socket AF_INET SOCK_STREAM 0]
      else if os.setsockopt (os.socket AF_INET SOCK_STREAM 0) SOL_SOCKET SO_REUSEADDR 1 < 0 then
        [SysCall.socket AF_INET SOCK_STREAM 0,
         SysCall.setsockopt (os.socket AF_INET SOCK_STREAM 0) SOL_SOCKET SO_REUSEADDR 1]
      else if os.bind (os.socket AF_INET SOCK_STREAM 0)
          { sin_family := AF_INET, sin_port := htons port, sin_addr := INADDR_ANY }
          sizeof_sockaddr_in < 0 then
        [SysCall.socket AF_INET SOCK_STREAM 0,
         SysCall.setsockopt (os.socket AF_INET SOCK_STREAM 0) SOL_SOCKET SO_REUSEADDR 1,
         SysCall.bind (os.socket AF_INET SOCK_STREAM 0)
          { sin_family := AF_INET, sin_port := htons port, sin_addr := INADDR_ANY }
          sizeof_sockaddr_in]
      else
        [SysCall.socket AF_INET SOCK_STREAM 0,
         SysCall.setsockopt (os.socket AF_INET SOCK_STREAM 0) SOL_SOCKET SO_REUSEADDR 1,
         SysCall.bind (os.socket AF_INET SOCK_STREAM 0)
          { sin_family := AF_INET, sin_port := htons port, sin_addr := INADDR_ANY }
          sizeof_sockaddr_in,
         SysCall.listen (os.socket AF_INET SOCK_STREAM 0) 10] := by
  unfold Socket.bind Socket._mk_socket
  by_cases h1 : os.socket AF_INET SOCK_STREAM 0 ≤ 0
  · simp [h1]
  · simp only [h1, if_false]
    split
    · rfl
    · split
      · rfl
      · split <;> rfl

/-- Helper: the port member after `bind` of genipc.hpp: the argument once the
descriptor is created and address reuse is enabled, the old value otherwise. -/
theorem Socket.bind_state_port (s : Socket) (port : Int) (os : OS) :
    (s.bind port os).state._port =
      if os.socket AF_INET SOCK_STREAM 0 ≤ 0 then s._port
      else if os.setsockopt (os.socket AF_INET SOCK_STREAM 0) SOL_SOCKET SO_REUSEADDR 1 < 0 then
        s._port
      else port := by
  unfold Socket.bind Socket._mk_socket
  by_cases h1 : os.socket AF_INET SOCK_STREAM 0 ≤ 0
  · simp [h1]
  · simp only [h1, if_false]
    split
    · rfl
    · split
      · rfl
      · split <;> rfl

/-- Helper: the result of `bind` of socket.hpp, by the answers of the four calls. -/
theorem socket_hpp.Socket.bind_outcome_by_steps (s : socket_hpp.Socket) (port : Int) (os : OS) :
    (s.bind port os).result =
      if os.socket AF_INET SOCK_STREAM 0 < 0 then
        Outcome.thrown (Thrown.text "Error creating socket")
      else if os.setsockopt (os.socket AF_INET SOCK_STREAM 0) SOL_SOCKET SO_REUSEADDR 1 < 0 then
        Outcome.thrown (Thrown.text "Error setting socket options")
      else if os.bind (os.socket AF_INET SOCK_STREAM 0)
          { sin_family := AF_INET, sin_port := htons port, sin_addr := INADDR_ANY }
          sizeof_sockaddr_in < 0 then
        Outcome.thrown (Thrown.runtime_error "Socket: Error binding socket")
      else if os.listen (os.socket AF_INET SOCK_STREAM 0) 10 < 0 then
        Outcome.thrown (Thrown.text "Error listening")
      else Outcome.returned () := by
  unfold socket_hpp.Socket.bind socket_hpp.Socket._mk_listener
  by_cases h1 : os.socket AF_INET SOCK_STREAM 0 < 0
  · simp [h1]
  · simp only [h1, if_false]
    split
    · rfl
    · split
      · rfl
      · split <;> rfl

/-- Helper: a descriptor that is 0 or more converts to true. -/
theorem SocketStream.operator_bool_of_nonneg (s : SocketStream) :
    s.operator_bool = true ↔ 0 ≤ s._socket := by
  simp [SocketStream.operator_bool]

/-- Helper: after one `bind` after another, `port()` is the port of the last
call that got as far as recording it, and the old value when none did. -/
theorem Socket.bind_each_port (calls : List (Int × OS)) (s : Socket) :
    (s.bind_each calls).port =
      (((calls.filter (fun c => c.2.bind_records_port)).getLast?).map Prod.fst).getD s.port := by
  induction calls generalizing s with
  | nil => simp [Socket.bind_each]
  | cons c rest ih =>
    obtain ⟨p, os⟩ := c
    rw [Socket.bind_each, ih, List.filter_cons]
    have hport : (s.bind p os).state.port = if os.bind_records_port = true then p else s.port := by
      unfold Socket.port OS.bind_records_port
      rw [Socket.bind_state_port]
      by_cases h1 : os.socket AF_INET SOCK_STREAM 0 ≤ 0
      · have h1n : ¬ 0 < os.socket AF_INET SOCK_STREAM 0 := by omega
        simp [h1, h1n]
      · have h1p : 0 < os.socket AF_INET SOCK_STREAM 0 := by omega
        by_cases h2 : os.setsockopt (os.socket AF_INET SOCK_STREAM 0) SOL_SOCKET SO_REUSEADDR 1 < 0
        · have h2n : ¬ 0 ≤ os.setsockopt (os.socket AF_INET SOCK_STREAM 0)
              SOL_SOCKET SO_REUSEADDR 1 := by omega
          simp [h1, h1p, h2, h2n]
        · have h2p : 0 ≤ os.setsockopt (os.socket AF_INET SOCK_STREAM 0)
              SOL_SOCKET SO_REUSEADDR 1 := by omega
          simp [h1, h1p, h2, h2p]
    rw [hport]
    by_cases hr : os.bind_records_port = true
    · simp only [hr, if_true, List.getLast?_cons]
      cases (List.filter (fun c => c.2.bind_records_port) rest).getLast? <;> simp
    · simp [hr]

/-! ### C strings and the two stream primitives -/

/-- Helper: an array that holds a zero byte reads as the bytes before the first one. -/
theorem cstr_of_mem (l : List Byte) (h : (0 : Byte) ∈ l) : cstr l = some (c_str l) := by
  induction l with
  | nil => simp at h
  | cons b bs ih =>
    by_cases hb : b = 0
    · simp [cstr, c_str, hb]
    · have hmem : (0 : Byte) ∈ bs := by
        rcases List.mem_cons.mp h with h0 | h0
        · exact absurd h0.symm hb
        · exact h0
      have ih2 := ih hmem
      simp only [c_str] at ih2
      simp [cstr, c_str, hb, ih2]

/-- Helper: an array without a zero byte has no value as a C string. -/
theorem cstr_of_not_mem (l : List Byte) (h : (0 : Byte) ∉ l) : cstr l = none := by
  induction l with
  | nil => rfl
  | cons b bs ih =>
    have hb : b ≠ 0 := fun hb => h (by simp [hb])
    have hbs : (0 : Byte) ∉ bs := fun hm => h (List.mem_cons_of_mem _ hm)
    simp [cstr, hb, ih hbs]

/-- Helper: a string without a zero byte is read whole through `c_str()`. -/
theorem c_str_of_not_mem (l : std_string) (h : (0 : Byte) ∉ l) : c_str l = l := by
  induction l with
  | nil => rfl
  | cons b bs ih =>
    have hb : b ≠ 0 := fun hb => h (by simp [hb])
    have hbs : (0 : Byte) ∉ bs := fun hm => h (List.mem_cons_of_mem _ hm)
    have ih2 := ih hbs
    unfold c_str at ih2 ⊢
    rw [List.takeWhile_cons, if_pos (decide_eq_true hb), ih2]

/-- Helper: bytes after a zero byte are not read. -/
theorem c_str_append_zero (l t : List Byte) : c_str (l ++ 0 :: t) = c_str l := by
  induction l with
  | nil => simp [c_str]
  | cons b bs ih =>
    unfold c_str at ih ⊢
    rw [List.cons_append, List.takeWhile_cons, List.takeWhile_cons, ih]

/-- Helper: a length below 2 ^ 31 survives the conversions to `int` and back. -/
theorem to_size_t_to_int (n : Nat) (h : n < 2 ^ 31) : to_size_t (to_int n) = n := by
  unfold to_size_t to_int
  omega

/-- Helper: `recv(std::string &)` when the kernel delivers at most `d` bytes. -/
theorem SocketStream.recv_string_upTo (s : SocketStream) (queue : List Byte) (d : Nat) :
    s.recv_string queue (Transfer.upTo d) =
      { ret := ((min d (min 1024 queue.length) : Nat) : Int)
        buf := cstr (queue.take (min d (min 1024 queue.length))
                ++ List.replicate (1024 - min d (min 1024 queue.length)) 0)
        queue := queue.drop (min d (min 1024 queue.length))
        calls := [SysCall.recv s._socket 1024 0] } := by
  have h : to_size_t (to_int 1024) = 1024 := to_size_t_to_int 1024 (by norm_num)
  unfold SocketStream.recv_string SocketStream.recv sys_recv
  simp only [h, List.drop_replicate]

/-- Helper: `send(const std::string &)` when the kernel accepts the whole string. -/
theorem SocketStream.send_string_whole (s : SocketStream) (buf : std_string) (queue : List Byte)
    (a : Nat) (hlen : buf.length < 2 ^ 31) (ha : buf.length ≤ a) :
    s.send_string buf queue (Transfer.upTo a) =
      { ret := (buf.length : Int), queue := queue ++ buf
        calls := [SysCall.send s._socket buf.length 0] } := by
  have h : to_size_t (to_int buf.length) = buf.length := to_size_t_to_int _ hlen
  have hmin : min a buf.length = buf.length := by omega
  simp [SocketStream.send_string, SocketStream.send, sys_send, h, hmin]

/-- Helper: `recv(std::string &)` on the peer of a `send(const std::string &)` of at
most 1024 bytes, when the kernel passes the whole string on both sides: the
local array holds the string followed by zero bytes up to 1024. -/
theorem SocketStream.recv_string_after_send (peer me : SocketStream) (payload : std_string)
    (a d : Nat) (hlen : payload.length ≤ 1024) (ha : payload.length ≤ a)
    (hd : payload.length ≤ d) :
    me.recv_string (peer.send_string payload [] (Transfer.upTo a)).queue (Transfer.upTo d) =
      { ret := (payload.length : Int)
        buf := cstr (payload ++ List.replicate (1024 - payload.length) 0)
        queue := []
        calls := [SysCall.recv me._socket 1024 0] } := by
  have hmin : min d (min 1024 payload.length) = payload.length := by omega
  rw [SocketStream.send_string_whole peer payload [] a (by omega) ha,
    SocketStream.recv_string_upTo]
  simp [hmin]

/-- Helper: `recv(std::string &)` when 1024 bytes or more are queued and the
kernel delivers as much as it is asked for: the local array is filled to its
last byte with the first 1024 bytes queued. -/
theorem SocketStream.recv_string_of_long_queue (s : SocketStream) (queue : List Byte) (d : Nat)
    (hlen : 1024 ≤ queue.length) (hd : 1024 ≤ d) :
    s.recv_string queue (Transfer.upTo d) =
      { ret := 1024
        buf := cstr (queue.take 1024)
        queue := queue.drop 1024
        calls := [SysCall.recv s._socket 1024 0] } := by
  have hmin : min d (min 1024 queue.length) = 1024 := by omega
  rw [SocketStream.recv_string_upTo, hmin]
  simp

/-! ### The claims -/

/-- C8: for every `SocketStream`, conversion to `bool` gives true if and only if
the stored descriptor is greater than or equal to 0. -/
theorem SocketStream.operator_bool_iff (s : SocketStream) :
    s.operator_bool = true ↔ 0 ≤ s._socket := by
  unfold SocketStream.operator_bool
  exact decide_eq_true_iff

/-- C9: in any state of the `Socket` of genipc.hpp, `close()` returns normally
after exactly one operating-system call, a close of the stored descriptor, and
leaves every member as it was (descriptor and port included); the destructor
run afterwards issues one more close, of the same descriptor value. -/
theorem Socket.close_then_destructor (s : Socket) :
    (s.close).calls = [SysCall.close s._fd] ∧
    (s.close).result = Outcome.returned () ∧
    (s.close).state = s ∧
    (s.close).state._fd = s._fd ∧
    (s.close).state.port = s.port ∧
    Socket.destructor (s.close).state = [SysCall.close s._fd] ∧
    (s.close).calls ++ Socket.destructor (s.close).state
      = [SysCall.close s._fd, SysCall.close s._fd] := by
  simp [Socket.close, Socket.destructor]

/-- C6: for every host string and port for which `connect` succeeds, the
returned `SocketStream` holds the descriptor answered by the `socket` call that
this `connect` issued (the value now in `_fd`), `host()` returns the host
argument unchanged and `serv()` returns the decimal text of the port. -/
theorem Socket.connect_endpoint (s : Socket) (host : std_string) (port : Int) (os : OS)
    (st : SocketStream) (h : (s.connect host port os).result = Outcome.returned st) :
    SysCall.socket AF_INET SOCK_STREAM 0 ∈ (s.connect host port os).calls ∧
    st._socket = os.socket AF_INET SOCK_STREAM 0 ∧
    st._socket = (s.connect host port os).state._fd ∧
    st.host = host ∧
    st.serv = to_string port := by
  have hst : st = { _socket := os.socket AF_INET SOCK_STREAM 0, _host := host,
                    _serv := to_string port } := by
    rw [Socket.connect_result] at h
    split at h
    · simp at h
    · split at h
      · simp at h
      · split at h
        · simp at h
        · simpa using h.symm
  refine ⟨?_, ?_, ?_, ?_, ?_⟩
  · rw [Socket.connect_calls]
    split
    · simp
    · split <;> simp
  · rw [hst]
  · rw [Socket.connect_state_fd, hst]
  · rw [hst]; rfl
  · rw [hst]; rfl

/-- C6, at a concrete input: connecting to 127.0.0.1, port 8080, when every
call succeeds. -/
theorem Socket.connect_endpoint_witness :
    (socket0.connect (ascii "127.0.0.1") 8080 os_all_succeed).result
      = Outcome.returned { _socket := 3, _host := ascii "127.0.0.1", _serv := ascii "8080" } ∧
    (SysCall.socket AF_INET SOCK_STREAM 0
        ∈ (socket0.connect (ascii "127.0.0.1") 8080 os_all_succeed).calls ∧
      (3 : Int) = os_all_succeed.socket AF_INET SOCK_STREAM 0 ∧
      (3 : Int) = (socket0.connect (ascii "127.0.0.1") 8080 os_all_succeed).state._fd ∧
      SocketStream.host { _socket := 3, _host := ascii "127.0.0.1", _serv := ascii "8080" }
        = ascii "127.0.0.1" ∧
      SocketStream.serv { _socket := 3, _host := ascii "127.0.0.1", _serv := ascii "8080" }
        = to_string 8080) :=
  ⟨by decide,
   Socket.connect_endpoint socket0 (ascii "127.0.0.1") 8080 os_all_succeed
     { _socket := 3, _host := ascii "127.0.0.1", _serv := ascii "8080" } (by decide)⟩

/-- C10: in genipc.hpp every `SocketStream` returned by a successful `connect`
has a strictly positive descriptor and converts to true: `socket` answered a
positive value, that answer is the descriptor of the endpoint, and `_mk_socket`
throws on every answer that is 0 or less, descriptor 0 included, which would
convert to true. -/
theorem Socket.connect_returns_usable_stream (s : Socket) (host : std_string) (port : Int)
    (os : OS) (st : SocketStream) (h : (s.connect host port os).result = Outcome.returned st) :
    0 < os.socket AF_INET SOCK_STREAM 0 ∧
    (s._mk_socket os).result = Outcome.returned () ∧
    0 < st._socket ∧
    st.operator_bool = true ∧
    st.operator_bool ≠ false ∧
    (∀ (t : Socket) (o : OS), o.socket AF_INET SOCK_STREAM 0 ≤ 0 →
      (t._mk_socket o).result = Outcome.thrown (Socket.SocketException "Error creating socket") ∧
      ∀ hst prt, (t.connect hst prt o).result
        = Outcome.thrown (Socket.SocketException "Error creating socket")) ∧
    (∀ hst srv, SocketStream.operator_bool { _socket := 0, _host := hst, _serv := srv } = true) := by
  have hrej : ∀ (t : Socket) (o : OS), o.socket AF_INET SOCK_STREAM 0 ≤ 0 →
      (t._mk_socket o).result = Outcome.thrown (Socket.SocketException "Error creating socket") ∧
      ∀ hst prt, (t.connect hst prt o).result
        = Outcome.thrown (Socket.SocketException "Error creating socket") := by
    intro t o ho
    constructor
    · rw [Socket._mk_socket_result]; simp [ho]
    · intro hst prt
      rw [Socket.connect_result]; simp [ho]
  have hzero : ∀ hst srv,
      SocketStream.operator_bool { _socket := 0, _host := hst, _serv := srv } = true := by
    intro hst srv
    rw [SocketStream.operator_bool_of_nonneg]
  rw [Socket.connect_result] at h
  by_cases h1 : os.socket AF_INET SOCK_STREAM 0 ≤ 0
  · simp [h1] at h
  · have hpos : 0 < os.socket AF_INET SOCK_STREAM 0 := by omega
    have hst : st._socket = os.socket AF_INET SOCK_STREAM 0 := by
      simp only [h1, if_false] at h
      split at h
      · simp at h
      · split at h
        · simp at h
        · simp only [Outcome.returned.injEq] at h
          rw [← h]
    have hb : st.operator_bool = true := by
      rw [SocketStream.operator_bool_of_nonneg]
      omega
    refine ⟨hpos, ?_, ?_, hb, ?_, hrej, hzero⟩
    · rw [Socket._mk_socket_result]; simp [h1]
    · omega
    · simp [hb]

/-- C10, at a concrete input: connecting to 127.0.0.1, port 8080, when every
call succeeds and `socket` answers 3. -/
theorem Socket.connect_returns_usable_stream_witness :
    (socket0.connect (ascii "127.0.0.1") 8080 os_all_succeed).result
      = Outcome.returned stream_client ∧
    0 < os_all_succeed.socket AF_INET SOCK_STREAM 0 ∧
    0 < stream_client._socket ∧
    stream_client.operator_bool = true :=
  ⟨by decide,
   (Socket.connect_returns_usable_stream socket0 (ascii "127.0.0.1") 8080 os_all_succeed
      stream_client (by decide)).1,
   (Socket.connect_returns_usable_stream socket0 (ascii "127.0.0.1") 8080 os_all_succeed
      stream_client (by decide)).2.2.1,
   (Socket.connect_returns_usable_stream socket0 (ascii "127.0.0.1") 8080 os_all_succeed
      stream_client (by decide)).2.2.2.1⟩

/-- C5, refuted as stated: with the operating system out of descriptors and a
host that is no address (`inet_pton` would answer 0), `connect` fails with the
error of socket creation, not with the address-format error; `inet_pton` is
not even called. -/
theorem Socket.connect_bad_host_without_descriptor :
    (os_no_descriptor.inet_pton AF_INET (c_str (ascii "localhost"))).1 ≤ 0 ∧
    (socket0.connect (ascii "localhost") 80 os_no_descriptor).result
      = Outcome.thrown (Thrown.SocketException "Socket: Error creating socket") ∧
    (socket0.connect (ascii "localhost") 80 os_no_descriptor).result
      ≠ Outcome.thrown (Socket.SocketException "Error converting host to binary") ∧
    (socket0.connect (ascii "localhost") 80 os_no_descriptor).calls
      = [SysCall.socket AF_INET SOCK_STREAM 0] := by
  decide

/-- C5, amended: for every host string and port, (1) when socket creation fails
(`socket` answers 0 or less) `connect` fails with the socket-creation error
whatever the host is, and `socket` is the only system call issued: neither
`inet_pton` nor `connect` is called; (2) when socket creation succeeds and the
host is no address (`inet_pton` answers 0 or less) it fails with the
address-format error and the system calls issued are `socket` and `inet_pton`
only, no `connect`; (3) when both succeed the calls issued are `socket`,
`inet_pton` and `connect`, in that order, and when the `connect` call fails it
fails with the connection error; (4) the three errors are pairwise different
values; (5) it returns an endpoint exactly when the three steps all succeed. -/
theorem Socket.connect_failures (s : Socket) (host : std_string) (port : Int) (os : OS) :
    (os.socket AF_INET SOCK_STREAM 0 ≤ 0 →
      (s.connect host port os).result
        = Outcome.thrown (Socket.SocketException "Error creating socket") ∧
      (s.connect host port os).calls = [SysCall.socket AF_INET SOCK_STREAM 0] ∧
      (∀ af src, SysCall.inet_pton af src ∉ (s.connect host port os).calls) ∧
      ∀ fd addr len, SysCall.connect fd addr len ∉ (s.connect host port os).calls) ∧
    (0 < os.socket AF_INET SOCK_STREAM 0 → (os.inet_pton AF_INET (c_str host)).1 ≤ 0 →
      (s.connect host port os).result
        = Outcome.thrown (Socket.SocketException "Error converting host to binary") ∧
      (s.connect host port os).calls
        = [SysCall.socket AF_INET SOCK_STREAM 0, SysCall.inet_pton AF_INET (c_str host)] ∧
      ∀ fd addr len, SysCall.connect fd addr len ∉ (s.connect host port os).calls) ∧
    (0 < os.socket AF_INET SOCK_STREAM 0 → 0 < (os.inet_pton AF_INET (c_str host)).1 →
      (s.connect host port os).calls
        = [SysCall.socket AF_INET SOCK_STREAM 0, SysCall.inet_pton AF_INET (c_str host),
           SysCall.connect (os.socket AF_INET SOCK_STREAM 0)
            { sin_family := AF_INET, sin_port := htons port
              sin_addr := (os.inet_pton AF_INET (c_str host)).2 } sizeof_sockaddr_in] ∧
      (os.connect (os.socket AF_INET SOCK_STREAM 0)
          { sin_family := AF_INET, sin_port := htons port
            sin_addr := (os.inet_pton AF_INET (c_str host)).2 } sizeof_sockaddr_in < 0 →
        (s.connect host port os).result
          = Outcome.thrown (Socket.SocketException "Error connecting to server"))) ∧
    (Socket.SocketException "Error connecting to server"
        ≠ Socket.SocketException "Error converting host to binary" ∧
      Socket.SocketException "Error creating socket"
        ≠ Socket.SocketException "Error converting host to binary" ∧
      Socket.SocketException "Error creating socket"
        ≠ Socket.SocketException "Error connecting to server") ∧
    ((∃ st, (s.connect host port os).result = Outcome.returned st) ↔
      0 < os.socket AF_INET SOCK_STREAM 0 ∧ 0 < (os.inet_pton AF_INET (c_str host)).1 ∧
      0 ≤ os.connect (os.socket AF_INET SOCK_STREAM 0)
          { sin_family := AF_INET, sin_port := htons port
            sin_addr := (os.inet_pton AF_INET (c_str host)).2 } sizeof_sockaddr_in) := by
  rw [Socket.connect_result, Socket.connect_calls]
  refine ⟨?_, ?_, ?_, by decide, ?_⟩
  · intro h1
    simp [h1]
  · intro h1 h2
    have h1n : ¬ os.socket AF_INET SOCK_STREAM 0 ≤ 0 := by omega
    simp [h1n, h2]
  · intro h1 h2
    have h1n : ¬ os.socket AF_INET SOCK_STREAM 0 ≤ 0 := by omega
    have h2n : ¬ (os.inet_pton AF_INET (c_str host)).1 ≤ 0 := by omega
    refine ⟨by simp [h1n, h2n], ?_⟩
    intro h3
    simp [h1n, h2n, h3]
  · constructor
    · rintro ⟨st, h⟩
      split at h
      · simp at h
      · split at h
        · simp at h
        · split at h
          · simp at h
          · omega
    · rintro ⟨h1, h2, h3⟩
      have h1n : ¬ os.socket AF_INET SOCK_STREAM 0 ≤ 0 := by omega
      have h2n : ¬ (os.inet_pton AF_INET (c_str host)).1 ≤ 0 := by omega
      have h3n : ¬ os.connect (os.socket AF_INET SOCK_STREAM 0)
          { sin_family := AF_INET, sin_port := htons port
            sin_addr := (os.inet_pton AF_INET (c_str host)).2 } sizeof_sockaddr_in < 0 := by omega
      simp [h1n, h2n, h3n]

/-- C5, amended, at concrete inputs: no descriptor, a host that is no address,
a refused connection, and a connection that succeeds. -/
theorem Socket.connect_failures_witness :
    ((socket0.connect (ascii "localhost") 80 os_no_descriptor).result
        = Outcome.thrown (Socket.SocketException "Error creating socket") ∧
      (socket0.connect (ascii "localhost") 80 os_no_descriptor).calls
        = [SysCall.socket AF_INET SOCK_STREAM 0] ∧
      (∀ af src,
        SysCall.inet_pton af src ∉ (socket0.connect (ascii "localhost") 80 os_no_descriptor).calls) ∧
      ∀ fd addr len,
        SysCall.connect fd addr len
          ∉ (socket0.connect (ascii "localhost") 80 os_no_descriptor).calls) ∧
    ((socket0.connect (ascii "localhost") 80 os_bad_host).result
        = Outcome.thrown (Socket.SocketException "Error converting host to binary") ∧
      (socket0.connect (ascii "localhost") 80 os_bad_host).calls
        = [SysCall.socket AF_INET SOCK_STREAM 0,
           SysCall.inet_pton AF_INET (c_str (ascii "localhost"))] ∧
      ∀ fd addr len,
        SysCall.connect fd addr len ∉ (socket0.connect (ascii "localhost") 80 os_bad_host).calls) ∧
    (socket0.connect (ascii "127.0.0.1") 80 os_connection_refused).result
      = Outcome.thrown (Socket.SocketException "Error connecting to server") ∧
    ∃ st, (socket0.connect (ascii "127.0.0.1") 80 os_all_succeed).result = Outcome.returned st :=
  ⟨(Socket.connect_failures socket0 (ascii "localhost") 80 os_no_descriptor).1 (by decide),
   (Socket.connect_failures socket0 (ascii "localhost") 80 os_bad_host).2.1
      (by decide) (by decide),
   ((Socket.connect_failures socket0 (ascii "127.0.0.1") 80 os_connection_refused).2.2.1
      (by decide) (by decide)).2 (by decide),
   (Socket.connect_failures socket0 (ascii "127.0.0.1") 80 os_all_succeed).2.2.2.2.2
      ⟨by decide, by decide, by decide⟩⟩

/-- C4, the code at the failing input: when `socket`, `setsockopt` and `::bind`
succeed and `listen` fails, `bind(8080)` of genipc.hpp and of socket.hpp, on a
`Socket` in any state, throws the string literal "Error listening", a bare
`const char *` and not an exception object, after the four calls `socket`,
`setsockopt` (address reuse), `::bind` (wildcard address, port 8080) and
`listen` (backlog 10); a failing `::bind` in the same function is thrown as an
exception object. -/
theorem Socket.bind_listen_failure_thrown_as_text (s : Socket) (t : socket_hpp.Socket) :
    (s.bind 8080 os_listen_fails).result = Outcome.thrown (Thrown.text "Error listening") ∧
    (t.bind 8080 os_listen_fails).result = Outcome.thrown (Thrown.text "Error listening") ∧
    (Thrown.text "Error listening").structured = false ∧
    (s.bind 8080 os_listen_fails).calls =
      [SysCall.socket AF_INET SOCK_STREAM 0,
       SysCall.setsockopt 3 SOL_SOCKET SO_REUSEADDR 1,
       SysCall.bind 3 { sin_family := AF_INET, sin_port := htons 8080, sin_addr := INADDR_ANY } 16,
       SysCall.listen 3 10] ∧
    (s.bind 8080 os_bind_fails).result
      = Outcome.thrown (Thrown.SocketException "Socket: Socket: Error binding socket") ∧
    (Thrown.SocketException "Socket: Socket: Error binding socket").structured = true ∧
    (t.bind 8080 os_bind_fails).result
      = Outcome.thrown (Thrown.runtime_error "Socket: Error binding socket") ∧
    (Thrown.runtime_error "Socket: Error binding socket").structured = true := by
  rw [Socket.bind_result, Socket.bind_result, Socket.bind_calls,
    socket_hpp.Socket.bind_outcome_by_steps, socket_hpp.Socket.bind_outcome_by_steps]
  decide

/-- C7, refuted as stated: after a successful `bind(80)`, a `bind(8080)` whose
`::bind` fails, and likewise one whose `listen` fails, throws and leaves
`port()` at 8080, although the most recent bind that succeeded was on port 80. -/
theorem Socket.port_changed_by_failed_bind :
    (socket0.bind 80 os_all_succeed).result = Outcome.returned () ∧
    (socket0.bind 80 os_all_succeed).state.port = 80 ∧
    ((socket0.bind 80 os_all_succeed).state.bind 8080 os_bind_fails).result
      = Outcome.thrown (Socket.SocketException "Socket: Error binding socket") ∧
    ((socket0.bind 80 os_all_succeed).state.bind 8080 os_bind_fails).state.port = 8080 ∧
    ((socket0.bind 80 os_all_succeed).state.bind 8080 os_listen_fails).result
      = Outcome.thrown (Thrown.text "Error listening") ∧
    ((socket0.bind 80 os_all_succeed).state.bind 8080 os_listen_fails).state.port = 8080 ∧
    ((socket0.bind 80 os_all_succeed).state.bind 8080 os_bind_fails).state.port
      ≠ (socket0.bind 80 os_all_succeed).state.port ∧
    (socket0.bind_each [(80, os_all_succeed), (8080, os_bind_fails)]).port = 8080 := by
  decide

/-- C7, amended: for every sequence of `bind` calls on a `Socket`, `port()`
returns the port of the most recent call that got past socket creation and
`setsockopt`, whether or not its `::bind` and `listen` then succeeded, and the
value from before the sequence when no call got that far.  For one call:
after a `bind(p)` that returns normally `port()` equals `p`; after one that
fails in `::bind` or in `listen` `port()` equals `p` as well; one that fails
in socket creation or in `setsockopt` leaves `port()` unchanged. -/
theorem Socket.port_after_bind (s : Socket) (port : Int) (os : OS) (calls : List (Int × OS)) :
    ((s.bind port os).result = Outcome.returned () → (s.bind port os).state.port = port) ∧
    ((s.bind port os).result
        = Outcome.thrown (Socket.SocketException "Socket: Error binding socket") ∨
      (s.bind port os).result = Outcome.thrown (Thrown.text "Error listening") →
      (s.bind port os).state.port = port) ∧
    ((s.bind port os).result = Outcome.thrown (Socket.SocketException "Error creating socket") ∨
      (s.bind port os).result = Outcome.thrown (Thrown.text "Error setting socket options") →
      (s.bind port os).state.port = s.port) ∧
    (s.bind_each calls).port =
      (((calls.filter (fun c => c.2.bind_records_port)).getLast?).map Prod.fst).getD s.port := by
  refine ⟨?_, ?_, ?_, Socket.bind_each_port calls s⟩
  all_goals
    unfold Socket.port
    rw [Socket.bind_result, Socket.bind_state_port]
    intro h
    by_cases h1 : os.socket AF_INET SOCK_STREAM 0 ≤ 0
    · simp only [h1, if_true] at h ⊢
      try (first | rfl | (exfalso; revert h; decide))
    · simp only [h1, if_false] at h ⊢
      by_cases h2 : os.setsockopt (os.socket AF_INET SOCK_STREAM 0) SOL_SOCKET SO_REUSEADDR 1 < 0
      · simp only [h2, if_true] at h ⊢
        try (first | rfl | (exfalso; revert h; decide))
      · simp only [h2, if_false] at h ⊢
        try (first | rfl | (exfalso; revert h; split <;> [decide; (split <;> decide)]))

/-- C7, amended, at concrete inputs: a `bind(8080)` that succeeds, one whose
`::bind` fails, one whose `listen` fails, one that gets no descriptor and one
whose `setsockopt` fails. -/
theorem Socket.port_after_bind_witness :
    (socket0.bind 8080 os_all_succeed).state.port = 8080 ∧
    (socket0.bind 8080 os_bind_fails).state.port = 8080 ∧
    (socket0.bind 8080 os_listen_fails).state.port = 8080 ∧
    (socket0.bind 8080 os_no_descriptor).state.port = socket0.port ∧
    (socket0.bind 8080 os_setsockopt_fails).state.port = socket0.port ∧
    (socket0.bind_each [(80, os_all_succeed), (8080, os_bind_fails), (9090, os_no_descriptor)]).port
      = 8080 :=
  ⟨(Socket.port_after_bind socket0 8080 os_all_succeed []).1 (by decide),
   (Socket.port_after_bind socket0 8080 os_bind_fails []).2.1 (Or.inl (by decide)),
   (Socket.port_after_bind socket0 8080 os_listen_fails []).2.1 (Or.inr (by decide)),
   (Socket.port_after_bind socket0 8080 os_no_descriptor []).2.2.1 (Or.inl (by decide)),
   (Socket.port_after_bind socket0 8080 os_setsockopt_fails []).2.2.1 (Or.inr (by decide)),
   (Socket.port_after_bind socket0 0 os_all_succeed
      [(80, os_all_succeed), (8080, os_bind_fails), (9090, os_no_descriptor)]).2.2.2.trans
     (by decide)⟩

/-- C3, refuted as stated: for an identity whose path does not exist (`ftok`
answers -1) and an operating system that declines the segment (`shmget`
answers -1), the constructor of `SharedMemory` returns normally, with -1 as
the segment id of its handle; nothing is thrown. -/
theorem genipc.SharedMemory.ctor_returns_without_segment :
    os_no_segment.ftok (c_str id_no_such_path.path) id_no_such_path.id = -1 ∧
    os_no_segment.shmget (-1) 64 (IPC_CREAT ||| 0o666) = -1 ∧
    (genipc.SharedMemory.ctor id_no_such_path 64 os_no_segment).result
      = Outcome.returned { _handle := { shmid := -1 } } ∧
    ∀ e, (genipc.SharedMemory.ctor id_no_such_path 64 os_no_segment).result ≠ Outcome.thrown e := by
  refine ⟨by decide, by decide, by decide, ?_⟩
  intro e h
  have h2 : (genipc.SharedMemory.ctor id_no_such_path 64 os_no_segment).result
      = Outcome.returned { _handle := { shmid := -1 } } := by decide
  rw [h2] at h
  exact Outcome.noConfusion h

/-- C3, amended: creating a `SharedMemory` never fails, whatever `ftok` and
`shmget` answer.  The constructor calls `ftok` on the path and id, passes its
answer (-1 included) to `shmget` as the key, with the size and the flags
`IPC_CREAT | 0666`, stores the answer of `shmget` (-1 included) as the segment
id of the handle, and returns normally; nothing is thrown. -/
theorem genipc.SharedMemory.ctor_never_fails (id : genipc.SharedMemory._unix_handle._id)
    (size : Nat) (os : OS) :
    (genipc.SharedMemory.ctor id size os).result
      = Outcome.returned
          { _handle :=
            { shmid := os.shmget (os.ftok (c_str id.path) id.id) size (IPC_CREAT ||| 0o666) } } ∧
    (genipc.SharedMemory.ctor id size os).calls
      = [SysCall.ftok (c_str id.path) id.id,
         SysCall.shmget (os.ftok (c_str id.path) id.id) size (IPC_CREAT ||| 0o666)] ∧
    (∀ e, (genipc.SharedMemory.ctor id size os).result ≠ Outcome.thrown e) ∧
    IPC_CREAT ||| 0o666 = 0o1666 := by
  refine ⟨rfl, rfl, ?_, by decide⟩
  intro e h
  have h2 : (genipc.SharedMemory.ctor id size os).result
      = Outcome.returned
          { _handle :=
            { shmid := os.shmget (os.ftok (c_str id.path) id.id) size (IPC_CREAT ||| 0o666) } } :=
    rfl
  rw [h2] at h
  exact Outcome.noConfusion h

/-- C1, refuted as stated: the three bytes `h`, zero, `i`, sent with
`send(text)` and delivered whole in one call, arrive as the one-byte string
`h`; `recv` returns 3. -/
theorem SocketStream.recv_string_cut_at_zero_byte :
    ([104, 0, 105] : std_string).length ≤ 1024 ∧
    (stream_server.recv_string
        (stream_client.send_string [104, 0, 105] [] (Transfer.upTo 3)).queue
        (Transfer.upTo 3)).ret = 3 ∧
    (stream_server.recv_string
        (stream_client.send_string [104, 0, 105] [] (Transfer.upTo 3)).queue
        (Transfer.upTo 3)).buf = some [104] ∧
    (stream_server.recv_string
        (stream_client.send_string [104, 0, 105] [] (Transfer.upTo 3)).queue
        (Transfer.upTo 3)).buf ≠ some [104, 0, 105] := by
  rw [SocketStream.recv_string_after_send stream_client stream_server [104, 0, 105] 3 3
    (by decide) (by decide) (by decide)]
  refine ⟨by decide, rfl, ?_, ?_⟩
  · show cstr ([104, 0, 105] ++ List.replicate (1024 - 3) 0) = some [104]
    rfl
  · show cstr ([104, 0, 105] ++ List.replicate (1024 - 3) 0) ≠ some [104, 0, 105]
    have h : cstr ([104, 0, 105] ++ List.replicate (1024 - 3) 0) = some [104] := rfl
    rw [h]
    decide

/-- C1, amended: for every string of at most 1024 bytes that the peer sends
with `send(text)` and that the kernel passes on whole, in one call on each
side, `recv(std::string &)` issues one receive, for 1024 bytes, returns the
length of the string and leaves the receive queue empty; when the string is
shorter than 1024 bytes or holds a zero byte, the output string is assigned
the bytes before the first zero byte, which is the whole string exactly when
it holds no zero byte.  (Nothing is said of the string assigned for 1024
bytes none of which is zero.) -/
theorem SocketStream.recv_string_round_trip (peer me : SocketStream) (payload : std_string)
    (a d : Nat) (hlen : payload.length ≤ 1024) (ha : payload.length ≤ a)
    (hd : payload.length ≤ d) :
    (me.recv_string (peer.send_string payload [] (Transfer.upTo a)).queue (Transfer.upTo d)).ret
      = payload.length ∧
    (me.recv_string (peer.send_string payload [] (Transfer.upTo a)).queue (Transfer.upTo d)).calls
      = [SysCall.recv me._socket 1024 0] ∧
    (me.recv_string (peer.send_string payload [] (Transfer.upTo a)).queue (Transfer.upTo d)).queue
      = [] ∧
    (payload.length < 1024 ∨ (0 : Byte) ∈ payload →
      (me.recv_string (peer.send_string payload [] (Transfer.upTo a)).queue (Transfer.upTo d)).buf
        = some (c_str payload) ∧
      ((0 : Byte) ∉ payload ↔
        (me.recv_string (peer.send_string payload [] (Transfer.upTo a)).queue
            (Transfer.upTo d)).buf
          = some payload)) := by
  rw [SocketStream.recv_string_after_send peer me payload a d hlen ha hd]
  refine ⟨rfl, rfl, rfl, ?_⟩
  intro hz
  have hbuf : cstr (payload ++ List.replicate (1024 - payload.length) 0) = some (c_str payload) := by
    by_cases hl : payload.length < 1024
    · obtain ⟨k, hk⟩ : ∃ k, 1024 - payload.length = k + 1 := ⟨1023 - payload.length, by omega⟩
      rw [hk, List.replicate_succ, cstr_of_mem _ (by simp), c_str_append_zero]
    · have h0 : (0 : Byte) ∈ payload := by
        rcases hz with h | h
        · exact absurd h hl
        · exact h
      have hk : 1024 - payload.length = 0 := by omega
      rw [hk, List.replicate_zero, List.append_nil, cstr_of_mem _ h0]
  refine ⟨hbuf, ?_⟩
  show (0 : Byte) ∉ payload ↔
    cstr (payload ++ List.replicate (1024 - payload.length) 0) = some payload
  rw [hbuf]
  constructor
  · intro h0
    rw [c_str_of_not_mem payload h0]
  · intro h h0
    have hc : c_str payload = payload := Option.some.inj h
    have hall : ∀ b ∈ c_str payload, b ≠ 0 := by
      intro b hb
      have := List.mem_takeWhile_imp hb
      simpa using this
    rw [hc] at hall
    exact hall 0 h0 rfl

/-- C1, amended, at a concrete input: the four bytes of "ping". -/
theorem SocketStream.recv_string_round_trip_witness :
    (ascii "ping").length ≤ 1024 ∧
    (stream_server.recv_string
        (stream_client.send_string (ascii "ping") [] (Transfer.upTo 4)).queue
        (Transfer.upTo 4)).ret = 4 ∧
    (stream_server.recv_string
        (stream_client.send_string (ascii "ping") [] (Transfer.upTo 4)).queue
        (Transfer.upTo 4)).calls = [SysCall.recv 4 1024 0] ∧
    (stream_server.recv_string
        (stream_client.send_string (ascii "ping") [] (Transfer.upTo 4)).queue
        (Transfer.upTo 4)).buf = some (ascii "ping") :=
  ⟨by decide,
   (SocketStream.recv_string_round_trip stream_client stream_server (ascii "ping") 4 4
      (by decide) (by decide) (by decide)).1,
   (SocketStream.recv_string_round_trip stream_client stream_server (ascii "ping") 4 4
      (by decide) (by decide) (by decide)).2.1,
   ((SocketStream.recv_string_round_trip stream_client stream_server (ascii "ping") 4 4
      (by decide) (by decide) (by decide)).2.2.2 (Or.inl (by decide))).2.mp (by decide)⟩

/-- C2, the code at the failing input: with 1025 bytes `a` queued, one
`recv(std::string &)` asks the receive primitive once, for 1024 bytes, gets
the first 1024 bytes and returns 1024, leaving one byte queued; the local
array is then full, holds no zero byte, and the assignment of the array to the
output string as a C string reads past its end: the string assigned is not
defined, where the claim has the first 1024 bytes. -/
theorem SocketStream.recv_string_overruns_full_buffer (s : SocketStream) :
    s.recv_string (List.replicate 1025 97) (Transfer.upTo 1025) =
      { ret := 1024, buf := none, queue := [97], calls := [SysCall.recv s._socket 1024 0] } := by
  have hlen : 1024 ≤ (List.replicate 1025 (97 : Byte)).length := by
    rw [List.length_replicate]
    norm_num
  rw [SocketStream.recv_string_of_long_queue s _ 1025 hlen (by norm_num)]
  have hbuf : cstr (List.take 1024 (List.replicate 1025 (97 : Byte))) = none := by
    apply cstr_of_not_mem
    intro h
    have h2 := List.mem_of_mem_take h
    rw [List.mem_replicate] at h2
    exact absurd h2.2 (by decide)
  have hq : List.drop 1024 (List.replicate 1025 (97 : Byte)) = [97] := by
    rw [List.drop_replicate]
    rfl
  rw [hbuf, hq]
